import Mathlib

/-!
Verification of `src/core/lib/promise/detail/promise_factory.h` (gRPC promise
factory adaptor).

The header is a compile-time adaptor: it normalizes user callables of several
shapes (zero- or one-argument; returning a raw value, a `Poll`, or a promise)
into a uniform zero-argument promise.  The development below embeds it at two
levels:

* a value-level embedding of the parts that type-check under C++14 (the
  `A = void` factory specialization, the single-argument `PromiseFactoryImpl`
  overloads, and the `Curried` wrapper class), together with a spec-modelled
  `PromiseLike` (the file `promise_like.h` is included by the header but is not
  part of the sources under verification);

* a type-level embedding of the compile-time dispatch itself: the
  `IsVoidCallable` / `ResultOf` traits, the SFINAE guards of the four
  two-argument `PromiseFactoryImpl` overloads, C++ overload resolution over
  them, and the `Curried` class instantiations the capture overload writes.

The type-level model records two facts about the snapshot that were checked
against the C++ semantics (g++ 12, `-std=c++14`):

1. `ResultOfT` (header lines 78-93) is not SFINAE-friendly: its member alias
   unconditionally names `ResultOfTInner<FP(Args...)>::T`, and when the call
   expression is invalid the failure happens while instantiating `ResultOfT`,
   outside the immediate substitution context — a hard compile error
   ("invalid use of incomplete type 'ResultOfTInner<...>'"), not a discarded
   overload.  Guards are therefore modelled as `Option Bool`, `none` being the
   hard error.

2. When several overloads survive substitution they are ambiguous: the
   one-argument pair differs from the zero-argument pair only as a forwarding
   reference `F&&` versus a by-value `F` parameter, which C++ partial ordering
   cannot order, and the two `F&&, A&&` overloads have identical parameter
   lists.  Resolution succeeds only when exactly one overload is viable.
-/

namespace GrpcPromise

/-- `Poll<T>` (from `poll.h`, the spec's `Status`): a two-variant result, either
still pending or done with a value. -/
inductive Poll (T : Type) where
  | pending : Poll T
  | done (value : T) : Poll T
  deriving DecidableEq, Repr

/-- A zero-argument callable that is not itself a promise: it returns either a
raw value `T` or a `Poll T` directly.  These are the callables the spec's
adaptation table wraps with `done` respectively passes through. -/
inductive Callable0 (T : Type) where
  | raw (f : Unit → T)
  | poll (f : Unit → Poll T)

/-- Modelled from the spec: `PromiseLike` lives in `promise_like.h`, which the
header includes but which is not among the sources; per the spec's adaptation
table a raw return value is wrapped into `done(value)` and a `Status` return is
passed through unchanged (identity, no re-wrapping). -/
def PromiseLike {T : Type} : Callable0 T → Unit → Poll T
  | .raw f, u => Poll.done (f u)
  | .poll f, u => f u

/-- The callable shapes accepted by the single-argument `PromiseFactoryImpl`
overloads (and hence by the `A = void` factory): a zero-argument callable
returning `T` or `Poll T` (overload at lines 127-131), or a zero-argument
callable returning a promise (overload at lines 150-156). -/
inductive CallableV (T : Type) where
  | plain (c : Callable0 T)
  | promise (f : Unit → Callable0 T)

/-- The single-argument `PromiseFactoryImpl` overloads, lines 127-131 and
150-156: a non-promise-returning callable is handed to `PromiseLike` unchanged;
a promise-returning callable is invoked eagerly (`return f();`) and the promise
it returns is what gets wrapped and polled. -/
def PromiseFactoryImpl {T : Type} : CallableV T → Unit → Poll T
  | .plain c => PromiseLike c
  | .promise f => PromiseLike (f ())

/-- `PromiseFactory<void, F>` (lines 180-193): holds exactly the callable
`f_`. -/
structure PromiseFactory0 (T : Type) where
  f : CallableV T

/-- The `Promise` alias of the factory (line 187): a single
`decltype(PromiseFactoryImpl(std::move(f_)))`, shared by `Once` and `Repeated`
as their common return type. -/
abbrev FactoryPromise (T : Type) : Type := Unit → Poll T

/-- `Once` (line 191): `return PromiseFactoryImpl(std::move(f_));`.  The member
is not rvalue-reference-qualified and performs no runtime check, so it is
defined on every factory value, including one whose callable was already moved
out.  The callables of this embedding are pure values (in C++ terms trivially
copyable), for which moving leaves the source unchanged, so the factory after
the call is the factory before it. -/
def PromiseFactory0.Once {T : Type} (fac : PromiseFactory0 T) :
    FactoryPromise T × PromiseFactory0 T :=
  (PromiseFactoryImpl fac.f, fac)

/-- `Repeated` (line 192): a `const` member, `return PromiseFactoryImpl(f_);`.
`f_` is passed by value — copied — so the factory is unchanged; the unchanged
state is returned alongside the promise to make the frame property explicit. -/
def PromiseFactory0.Repeated {T : Type} (fac : PromiseFactory0 T) :
    FactoryPromise T × PromiseFactory0 T :=
  (PromiseFactoryImpl fac.f, fac)

/-- Calling `Repeated` n times in sequence on a factory, polling each produced
promise once and threading the factory state through the calls. -/
def repeatedRun {T : Type} (fac : PromiseFactory0 T) : Nat → List (Poll T)
  | 0 => []
  | n + 1 => (PromiseFactory0.Repeated fac).1 () ::
      repeatedRun (PromiseFactory0.Repeated fac).2 n

/-- The `Curried` wrapper class (lines 97-108): captures the promise functor
and the argument passed.  It is embedded at the instantiation its declaration
prescribes, `F` a one-argument callable over `A`. -/
structure Curried (A R : Type) where
  f : A → R
  arg : A

/-- `Curried::operator()` (line 103): `return f_(arg_);` — each invocation
applies the stored callable to the stored argument afresh; the class has no
field besides `f_` and `arg_`, in particular no cached result. -/
def Curried.run {A R : Type} (c : Curried A R) : R := c.f c.arg

/-- n successive invocations of the same `Curried` wrapper. -/
def Curried.runN {A R : Type} (c : Curried A R) : Nat → List R
  | 0 => []
  | n + 1 => c.run :: c.runN n

/-- Polling a promise n times. -/
def pollN {T : Type} (p : Unit → Poll T) : Nat → List (Poll T)
  | 0 => []
  | n + 1 => p () :: pollN p n

/-- Effect-instrumented rendering of the promise-returning overload at lines
150-156 (`return f();`): the callable is a state transformer over `S`; it runs
exactly once, at adaptation time, producing the promise that is subsequently
polled.  The returned promise has no access to `S`, mirroring that the code
returns the callable's result and never touches the callable again. -/
def PromiseFactoryImplEff {T S : Type} (f : S → Callable0 T × S) (s : S) :
    (Unit → Poll T) × S :=
  (PromiseLike (f s).1, (f s).2)

/-!
Type-level model of the compile-time dispatch.

C++ types are modelled only as far as the traits of the header inspect them:
whether a type is callable with zero arguments, callable with one argument of a
given type, and what the result type is.
-/

/-- A model of the C++ types the dispatch discriminates: opaque non-callable
value types, `Poll<t>`, a type callable only with zero arguments, one callable
only with one argument, and one callable both ways (such as a functor with two
`operator()` overloads).  `fnBoth a r1 r0` takes `a` to `r1` when given one
argument and yields `r0` when given none. -/
inductive Ty where
  | base (n : Nat)
  | poll (t : Ty)
  | fn0 (r : Ty)
  | fn1 (a r : Ty)
  | fnBoth (a r1 r0 : Ty)
  deriving DecidableEq, Repr

/-- Result type of `declval<F>()()` when that call expression is valid. -/
def resultOf0 : Ty → Option Ty
  | .fn0 r => some r
  | .fnBoth _ _ r0 => some r0
  | _ => none

/-- Result type of `declval<F>()(declval<A>())` when that call expression is
valid (conversions are modelled as exact type match). -/
def resultOf1 : Ty → Ty → Option Ty
  | .fn1 a r, x => if x = a then some r else none
  | .fnBoth a r1 _, x => if x = a then some r1 else none
  | _, _ => none

/-- The `IsVoidCallable` trait (lines 57-70): is `x()` legal for `T x`? -/
def IsVoidCallable (t : Ty) : Bool := (resultOf0 t).isSome

/-- Guard of the capture overload, lines 112-116:
`!IsVoidCallable<ResultOf<F(A)>>()`.  `ResultOfT` (lines 78-93) names
`ResultOfTInner<FP(Args...)>::T` unconditionally, so when `F` is not invocable
with `A` the failure is outside the immediate substitution context and the
whole call is ill-formed; `none` models that hard error (g++ 12: "invalid use
of incomplete type 'ResultOfTInner<...>'"). -/
def overloadGuard1 (F A : Ty) : Option Bool :=
  (resultOf1 F A).map (fun R => !IsVoidCallable R)

/-- Guard of the argument-dropping overload, lines 119-124:
`!IsVoidCallable<ResultOf<F()>>()`; `none` is the same hard error when `F` is
not invocable with zero arguments. -/
def overloadGuard2 (F _A : Ty) : Option Bool :=
  (resultOf0 F).map (fun R => !IsVoidCallable R)

/-- Guard of the overload for promise-returning one-argument callables, lines
134-139: `IsVoidCallable<ResultOf<F(A)>>()`. -/
def overloadGuard3 (F A : Ty) : Option Bool :=
  (resultOf1 F A).map (fun R => IsVoidCallable R)

/-- Guard of the overload for promise-returning zero-argument callables with a
dropped argument, lines 141-148: `IsVoidCallable<ResultOf<F()>>()`. -/
def overloadGuard4 (F _A : Ty) : Option Bool :=
  (resultOf0 F).map (fun R => IsVoidCallable R)

/-- The four normalization strategies of the two-argument overload set, in
source order: capture the argument (lines 112-116), drop the argument (lines
119-124), invoke the callable on the argument eagerly (lines 134-139), invoke
the callable with no argument eagerly (lines 141-148). -/
inductive Strategy where
  | curried
  | dropArg
  | callArg
  | callNoArg
  deriving DecidableEq, Repr

/-- C++ overload resolution for the call
`PromiseFactoryImpl(f, arg)` made by `PromiseFactory<A, F>` (lines 165-176)
over the four guarded overloads.  The call compiles only when every guard
substitutes without a hard error and exactly one overload is viable: any two
viable overloads here are ambiguous, since the one-argument pair differs from
the zero-argument pair only as a forwarding-reference versus a by-value
parameter (not ordered by partial ordering) and overloads sharing the
`(F&&, A&&)` parameter list are indistinguishable (checked with g++ 12). -/
def selectOverload (F A : Ty) : Option Strategy :=
  match overloadGuard1 F A, overloadGuard2 F A,
        overloadGuard3 F A, overloadGuard4 F A with
  | some b1, some b2, some b3, some b4 =>
    match b1, b2, b3, b4 with
    | true, false, false, false => some .curried
    | false, true, false, false => some .dropArg
    | false, false, true, false => some .callArg
    | false, false, false, true => some .callNoArg
    | _, _, _, _ => none
  | _, _, _, _ => none

/-- The `Result` alias of `Curried<Fc, Argc>` (line 101):
`decltype(declval<F>()(declval<Arg>()))`, defined only when the first class
parameter is invocable with the second. -/
def curriedResult (Fc Argc : Ty) : Option Ty := resultOf1 Fc Argc

/-- The instantiation the capture overload actually writes at lines 114 and
116: `Curried<A, F>` — the class's callable slot receives the argument type and
its argument slot the callable type, although the class itself is declared
`Curried<F, Arg>` at line 97 (upstream gRPC writes `Curried<RemoveCVRef<F>, A>`
here). -/
def curriedInstAsWritten (F A : Ty) : Option Ty := curriedResult A F

/-- The instantiation matching `Curried`'s own declaration and the overload's
comment: callable first, argument second. -/
def curriedInstIntended (F A : Ty) : Option Ty := curriedResult F A

/-!
Theorems.
-/

/-- Helper: polling a promise n times yields n copies of its (pure) result. -/
theorem pollN_replicate {T : Type} (p : Unit → Poll T) (n : Nat) :
    pollN p n = List.replicate n (p ()) := by
  induction n with
  | zero => rfl
  | succ n ih => simp [pollN, List.replicate, ih]

/-- C1: evaluation of the code at the spec's own scenario
(`inc = [](int x){ return x+1; }` with argument `5`, i.e. `F = int → int`,
`A = int`).  The capture overload's guard holds (the shape the claim speaks
about is selected by it), but (i) the guard of the argument-dropping overload
is a hard error, since `ResultOf<F()>` is evaluated although `inc` is not
zero-argument invocable and `ResultOfT` is not SFINAE-friendly, and (ii) the
`Curried<A, F>` instantiation written at line 116 has no valid `Result` — its
callable slot holds `int` — while the instantiation prescribed by `Curried`'s
own declaration does; so overload resolution fails and `Once(5)` does not
compile, instead of returning a promise yielding `done(6)`.  The last conjunct
shows the behaviour the intended instantiation would produce: wrapping the
intended `Curried` wrapper as a raw-value producer yields `done 6`. -/
theorem one_arg_raw_scenario_ill_formed :
    overloadGuard1 (Ty.fn1 (Ty.base 0) (Ty.base 0)) (Ty.base 0) = some true ∧
    overloadGuard2 (Ty.fn1 (Ty.base 0) (Ty.base 0)) (Ty.base 0) = none ∧
    curriedInstAsWritten (Ty.fn1 (Ty.base 0) (Ty.base 0)) (Ty.base 0) = none ∧
    curriedInstIntended (Ty.fn1 (Ty.base 0) (Ty.base 0)) (Ty.base 0) =
      some (Ty.base 0) ∧
    selectOverload (Ty.fn1 (Ty.base 0) (Ty.base 0)) (Ty.base 0) = none ∧
    PromiseLike (Callable0.raw
        (fun _ => Curried.run (Curried.mk (fun x : Nat => x + 1) 5))) () =
      Poll.done 6 := by
  refine ⟨rfl, rfl, rfl, rfl, rfl, rfl⟩

/-- C2 counterexample: a callable invocable both with zero arguments and with
the supplied argument (raw results both ways).  Each of the two raw-value
overloads is viable on its own — the premise of the claim genuinely holds —
yet resolution selects nothing: the call is ambiguous, so neither
zero-argument strategy is chosen. -/
theorem both_arity_zero_preference_refuted :
    overloadGuard1 (Ty.fnBoth (Ty.base 0) (Ty.base 1) (Ty.base 2)) (Ty.base 0) =
      some true ∧
    overloadGuard2 (Ty.fnBoth (Ty.base 0) (Ty.base 1) (Ty.base 2)) (Ty.base 0) =
      some true ∧
    selectOverload (Ty.fnBoth (Ty.base 0) (Ty.base 1) (Ty.base 2)) (Ty.base 0) =
      none ∧
    selectOverload (Ty.fnBoth (Ty.base 0) (Ty.base 1) (Ty.base 2)) (Ty.base 0) ≠
      some Strategy.dropArg ∧
    selectOverload (Ty.fnBoth (Ty.base 0) (Ty.base 1) (Ty.base 2)) (Ty.base 0) ≠
      some Strategy.callNoArg := by
  refine ⟨rfl, rfl, rfl, by decide, by decide⟩

/-- C2 amended: for every callable shape invocable both with zero arguments
and with one argument, and every supplied argument type, the two-argument
dispatch resolves to no overload at all — the call is rejected at compile time
(ambiguity when the argument type matches, a hard `ResultOfT` error otherwise);
no zero-argument preference exists, and no strategy receives the argument. -/
theorem both_arity_dispatch_rejected (a r1 r0 x : Ty) :
    selectOverload (Ty.fnBoth a r1 r0) x = none := by
  by_cases h : x = a
  · subst h
    unfold selectOverload overloadGuard1 overloadGuard2 overloadGuard3
      overloadGuard4
    simp only [resultOf1, resultOf0, if_pos, Option.map_some']
    cases IsVoidCallable r1 <;> cases IsVoidCallable r0 <;> rfl
  · simp [selectOverload, overloadGuard1, overloadGuard2, overloadGuard3,
      overloadGuard4, resultOf1, resultOf0, h]

/-- C2 amended, witness at the concrete both-ways-invocable shape. -/
theorem both_arity_dispatch_rejected_witness :
    selectOverload (Ty.fnBoth (Ty.base 0) (Ty.base 1) (Ty.base 2)) (Ty.base 0) =
      none :=
  both_arity_dispatch_rejected (Ty.base 0) (Ty.base 1) (Ty.base 2) (Ty.base 0)

/-- C3 counterexample at the spec's `poll_fn` shape (`F = int → Poll int`,
`A = int`): a `Status`-returning one-argument callable is not routed to the
direct-invocation strategy that would consume the argument at adaptation time —
that overload's guard is false, since a `Poll` is not zero-argument invocable —
but to the argument-capturing overload; and the call does not resolve at all
(the zero-argument guards hard-error and the written `Curried<A, F>` is
ill-formed), so its invocation cannot return `f(x)` with `x` consumed
immediately. -/
theorem status_one_arg_direct_refuted :
    overloadGuard3 (Ty.fn1 (Ty.base 0) (Ty.poll (Ty.base 0))) (Ty.base 0) =
      some false ∧
    overloadGuard1 (Ty.fn1 (Ty.base 0) (Ty.poll (Ty.base 0))) (Ty.base 0) =
      some true ∧
    curriedInstAsWritten (Ty.fn1 (Ty.base 0) (Ty.poll (Ty.base 0))) (Ty.base 0) =
      none ∧
    selectOverload (Ty.fn1 (Ty.base 0) (Ty.poll (Ty.base 0))) (Ty.base 0) ≠
      some Strategy.callArg ∧
    selectOverload (Ty.fn1 (Ty.base 0) (Ty.poll (Ty.base 0))) (Ty.base 0) =
      none := by
  refine ⟨rfl, rfl, rfl, by decide, rfl⟩

/-- C3 amended: a one-argument `Status`-returning callable matches the guard of
the argument-capturing overload, not of the direct-invocation overload (whose
guard requires a promise-returning result); the `Curried` wrapper that overload
is meant to build retains the argument and, on each invocation, returns exactly
`f(x)`; the overall call is nonetheless ill-formed as written (swapped
`Curried` parameters and non-SFINAE-friendly guards, cf. C1). -/
theorem status_one_arg_routes_to_capture :
    (∀ a t : Ty,
      overloadGuard1 (Ty.fn1 a (Ty.poll t)) a = some true ∧
      overloadGuard3 (Ty.fn1 a (Ty.poll t)) a = some false ∧
      selectOverload (Ty.fn1 a (Ty.poll t)) a = none) ∧
    (∀ (α β : Type) (f : α → Poll β) (x : α),
      Curried.run (Curried.mk f x) = f x) := by
  constructor
  · intro a t
    refine ⟨?_, ?_, ?_⟩ <;>
      simp [overloadGuard1, overloadGuard2, overloadGuard3, overloadGuard4,
        selectOverload, resultOf1, resultOf0, IsVoidCallable]
  · intro α β f x
    rfl

/-- C4: `Once` and `Repeated` return the one shared `Promise` type of the
factory (both are `FactoryPromise T` by the single alias, mirroring the single
`decltype` at line 187), and on equal callable and argument the two promises
are equal, hence behave identically when invoked.  The claim's one-argument
shapes are vacuous on this snapshot: no `PromiseFactory<A ≠ void, F>`
instantiates (cf. C1), so the quantification over supported shapes is carried
by the `A = void` specialization. -/
theorem once_repeated_same_promise {T : Type} (fac : PromiseFactory0 T) :
    (PromiseFactory0.Once fac).1 = (PromiseFactory0.Repeated fac).1 := rfl

/-- C5 counterexample: a second `Once` on the factory returned by a first
`Once` is expressible and yields a working promise — on the concrete factory
over `fun _ => 42` the second call's promise still evaluates to `done 42` —
contradicting that a second `Once` must not compile or must not be
expressible without constructing a fresh factory. -/
theorem second_once_expressible :
    (PromiseFactory0.Once
      (PromiseFactory0.Once
        (PromiseFactory0.mk
          (CallableV.plain (Callable0.raw (fun _ => (42 : Nat)))))).2).1 () =
      Poll.done 42 := rfl

/-- C5 amended: `Once` move-consumes the stored callable, but nothing disallows
a second call by construction — the member is not rvalue-reference-qualified,
so the factory object still accepts `Once` after the move; for the trivially
copyable callables modelled here, the moved-from callable equals the original
and a second `Once` reproduces the first call exactly.  Avoiding reuse is
caller discipline, not a property enforced by the types. -/
theorem once_not_consuming_by_construction {T : Type} (fac : PromiseFactory0 T) :
    PromiseFactory0.Once (PromiseFactory0.Once fac).2 =
      PromiseFactory0.Once fac := rfl

/-- C6: a zero-argument callable returning a `Status` is adapted to a promise
whose invocation returns exactly the callable's result, with no re-wrapping:
the adaptation is the identity on the returned `Poll` value. -/
theorem zero_arg_status_identity {T : Type} (g : Unit → Poll T) :
    (PromiseFactory0.Once
      (PromiseFactory0.mk (CallableV.plain (Callable0.poll g)))).1 () =
      g () := rfl

/-- C7: invoking `Repeated` n times on the same factory produces n promises
whose invocations yield n identical `Status` results — each equal to the single
adaptation of the stored (pure) callable. -/
theorem repeated_n_identical {T : Type} (fac : PromiseFactory0 T) (n : Nat) :
    repeatedRun fac n = List.replicate n (PromiseFactoryImpl fac.f ()) := by
  induction n with
  | zero => rfl
  | succ n ih => simp [repeatedRun, PromiseFactory0.Repeated, List.replicate, ih]

/-- C8: `Repeated` is non-mutating: it hands a copy of the stored callable to
the adaptation and leaves the factory — in particular its stored callable —
exactly as it was. -/
theorem repeated_leaves_factory_unchanged {T : Type} (fac : PromiseFactory0 T) :
    (PromiseFactory0.Repeated fac).2 = fac ∧
    (PromiseFactory0.Repeated fac).2.f = fac.f := ⟨rfl, rfl⟩

/-- C9: a `Curried` promise caches nothing: n invocations of the same wrapper
perform n fresh applications of the stored callable to the stored argument, so
for a pure callable all invocations return equal results. -/
theorem curried_fresh_invocation {A R : Type} (c : Curried A R) (n : Nat) :
    Curried.runN c n = List.replicate n (c.f c.arg) := by
  induction n with
  | zero => rfl
  | succ n ih => simp [Curried.runN, Curried.run, List.replicate, ih]

/-- C10: a promise-returning callable is invoked eagerly at adaptation time:
all of its side effects on the state are complete before any poll, the value it
returned is (after `PromiseLike` wrapping) the promise that is subsequently
polled, and polling any number of times only re-invokes that returned promise,
never the callable — the produced promise has no access to the callable's
state. -/
theorem promise_returning_invoked_eagerly {T S : Type}
    (f : S → Callable0 T × S) (s : S) (n : Nat) :
    (PromiseFactoryImplEff f s).2 = (f s).2 ∧
    (PromiseFactoryImplEff f s).1 = PromiseLike (f s).1 ∧
    pollN (PromiseFactoryImplEff f s).1 n =
      List.replicate n (PromiseLike (f s).1 ()) :=
  ⟨rfl, rfl, pollN_replicate _ n⟩

end GrpcPromise
